import Mathlib

/-!
Shallow embedding of the query-resolution and transcript-acquisition
pipeline of `src/app.py` (transcripts-assistant), together with theorems
settling the specification claims about it.

Modelling conventions:
* HTTP interactions with the transcript service are a function
  `Nat → FetchResult` from the overall request index (number of requests
  made so far) to the outcome of that request.
* `requests.get` raising a `RequestException` (transport failure), and
  `response.raise_for_status()` raising an `HTTPError` (a subclass of
  `RequestException`), are the constructors `transportError` and
  `httpError`; both are caught by the single `except` clause.
* Python exceptions that are NOT caught (`ValueError` from `int(...)` on
  an unparseable `Retry-After` header, `ValueError` from
  `time.sleep(negative)`) surface as the `crashed` outcome, which
  propagates out of every function, modelled with `Except`.
* Sleeps and requests are logged in a `FetchLog` so that theorems can
  speak about how many attempts were made, with which years, and how
  long the code slept.
-/

namespace TranscriptsAssistant

/-- The transcript record returned by the transcript service: one element of
the JSON list, with the fields the program reads
(`symbol`, `date`, `year`, `content`). -/
structure Transcript where
  symbol : String
  date : String
  year : Int
  content : String
deriving Repr, DecidableEq

/-- Outcome of one HTTP request to the transcript service, as observed by
`get_transcripts`:
* `ok ts` — status 200 and `response.json()` is a JSON list `ts`;
* `okNonList` — status 200 but the JSON body is not a list
  (the `isinstance(transcripts, list)` test fails);
* `rateLimited h` — status 429, with `h` the raw `Retry-After` header
  (`none` when the header is absent);
* `httpError` — any other status, so `response.raise_for_status()` raises
  an `HTTPError` (a `RequestException`);
* `transportError` — `requests.get` itself raises a `RequestException`. -/
inductive FetchResult where
  | ok (transcripts : List Transcript)
  | okNonList
  | rateLimited (retryAfter : Option String)
  | httpError
  | transportError
deriving Repr, DecidableEq

/-- Reads a run of decimal digits with an accumulator; `none` as soon as a
non-digit character appears. Structural recursion, so that proofs can
evaluate it in the kernel. -/
def pyIntDigits : List Char → Nat → Option Nat
  | [], acc => some acc
  | c :: cs, acc =>
      if c.isDigit then pyIntDigits cs (acc * 10 + (c.toNat - 48)) else none

/-- Model of Python `int(s)` on a header string: `some n` when the string
is a canonically written decimal integer (optional sign, then digits),
`none` when `int` raises `ValueError` (e.g. on `"abc"`). -/
def pyInt? (s : String) : Option Int :=
  match s.data with
  | [] => none
  | '-' :: [] => none
  | '-' :: cs => (pyIntDigits cs 0).map fun n => -(n : Int)
  | '+' :: [] => none
  | '+' :: cs => (pyIntDigits cs 0).map fun n => (n : Int)
  | cs => (pyIntDigits cs 0).map fun n => (n : Int)

/-- Observable log of a `get_transcripts` run: the `(ticker, year)` pair of
every HTTP request made, in order, and every `time.sleep` duration in
seconds, in order. -/
structure FetchLog where
  calls : List (String × Int)
  sleeps : List Nat
deriving Repr, DecidableEq

/-- How one run of the inner `for attempt in range(max_retries)` loop of
`get_transcripts` ends:
* `found t` — `return transcripts[0]` (line 101);
* `abortedNone` — `return None` after the last transport-retry attempt
  (line 114);
* `crashed` — an uncaught exception (`ValueError` from `int` on a bad
  `Retry-After` value, or from `time.sleep` on a negative one);
* `advanceYear` — the loop ended by `break` (empty 200 result) or by
  exhausting `range(max_retries)` (persistent 429), so control falls
  through to `transcript_year -= 1`. -/
inductive InnerResult where
  | found (t : Transcript)
  | abortedNone
  | crashed
  | advanceYear
deriving Repr, DecidableEq

/-- The inner loop of `get_transcripts` (src/app.py lines 95–115):
`rem` is the number of iterations `range(max_retries)` still has,
`attempt` the current 0-based attempt number (so the loop is entered with
`rem = max_retries`, `attempt = 0` and `rem + attempt = max_retries`).
The request index fed to `service` is the number of requests made so far,
`log.calls.length`. -/
def innerLoop (service : Nat → FetchResult) (single_ticker : String) (year : Int)
    (max_retries : Nat) : Nat → Nat → FetchLog → InnerResult × FetchLog
  | 0, _, log => (.advanceYear, log)
  | rem + 1, attempt, log =>
      let log1 : FetchLog := { log with calls := log.calls ++ [(single_ticker, year)] }
      match service log.calls.length with
      | .ok ts =>
          match ts with
          | t :: _ => (.found t, log1)
          | [] => (.advanceYear, log1)
      | .okNonList => (.advanceYear, log1)
      | .rateLimited hdr =>
          match (match hdr with | none => some (5 : Int) | some s => pyInt? s) with
          | none => (.crashed, log1)
          | some ra =>
              if ra < 0 then (.crashed, log1)
              else innerLoop service single_ticker year max_retries rem (attempt + 1)
                     { log1 with sleeps := log1.sleeps ++ [ra.toNat] }
      | .httpError =>
          if attempt + 1 == max_retries then (.abortedNone, log1)
          else innerLoop service single_ticker year max_retries rem (attempt + 1)
                 { log1 with sleeps := log1.sleeps ++ [2 ^ attempt] }
      | .transportError =>
          if attempt + 1 == max_retries then (.abortedNone, log1)
          else innerLoop service single_ticker year max_retries rem (attempt + 1)
                 { log1 with sleeps := log1.sleeps ++ [2 ^ attempt] }

/-- How `get_transcripts` as a whole ends:
* `found t` — returned a transcript (line 101);
* `abortedNone` — returned `None` from inside the inner loop after the
  last transport-retry attempt (line 114);
* `notFoundNone` — returned `None` after `range(year_retries)` was
  exhausted (line 118, "Max retries for year reduction exceeded");
* `crashed` — terminated by an uncaught exception. -/
inductive FetchOutcome where
  | found (t : Transcript)
  | abortedNone
  | notFoundNone
  | crashed
deriving Repr, DecidableEq

/-- The outer loop of `get_transcripts` (src/app.py lines 93–118):
`yrem` is the number of iterations `range(year_retries)` still has. After
an inner loop that neither returned nor crashed, the year is decremented
and the inner loop restarts. -/
def outerLoop (service : Nat → FetchResult) (single_ticker : String)
    (max_retries : Nat) : Nat → Int → FetchLog → FetchOutcome × FetchLog
  | 0, _, log => (.notFoundNone, log)
  | yrem + 1, transcript_year, log =>
      match innerLoop service single_ticker transcript_year max_retries max_retries 0 log with
      | (.found t, log2) => (.found t, log2)
      | (.abortedNone, log2) => (.abortedNone, log2)
      | (.crashed, log2) => (.crashed, log2)
      | (.advanceYear, log2) =>
          outerLoop service single_ticker max_retries yrem (transcript_year - 1) log2

/-- `get_transcripts(single_ticker, transcript_year, max_retries=5,
year_retries=3)` of src/app.py lines 89–118, with the transcript service
abstracted as `service` and the performed requests and sleeps logged. -/
def get_transcripts (service : Nat → FetchResult) (single_ticker : String)
    (transcript_year : Int) (max_retries : Nat) (year_retries : Nat) :
    FetchOutcome × FetchLog :=
  outerLoop service single_ticker max_retries year_retries transcript_year ⟨[], []⟩

/-- A transcript service that raises a transport error on every request. -/
def svcAlwaysTransport : Nat → FetchResult := fun _ => .transportError

/-- A transcript service that answers HTTP 429 with header value 1 on
every request. -/
def svcAlways429 : Nat → FetchResult := fun _ => .rateLimited (some "1")

/-- A transcript service that answers HTTP 200 with an empty list on every
request. -/
def svcAllEmpty : Nat → FetchResult := fun _ => .ok []

/-- The 2022 transcript of the C3 scenario. -/
def tC3 : Transcript := ⟨"AAPL", "2022-11-01 16:30:00", 2022, "call text 2022"⟩

/-- Scenario service for C3: HTTP 200 with an empty list on the first two
requests, then a valid transcript. -/
def svcC3 : Nat → FetchResult := fun k => if k < 2 then .ok [] else .ok [tC3]

/-- The transcript of the C4 scenarios. -/
def tC4 : Transcript := ⟨"AAPL", "2024-05-02 16:30:00", 2024, "call text 2024"⟩

/-- Scenario service for C4: HTTP 429 with header value 2 on the first two
requests, then a valid transcript. -/
def svcC4 : Nat → FetchResult := fun k => if k < 2 then .rateLimited (some "2") else .ok [tC4]

/-- Scenario service for the default branch of C4: HTTP 429 with no
header on the first request, then a valid transcript. -/
def svcC4b : Nat → FetchResult := fun k => if k < 1 then .rateLimited none else .ok [tC4]

/-- A transcript service that answers HTTP 429 with an unparseable
header value on every request. -/
def svcBadRetryAfter : Nat → FetchResult := fun _ => .rateLimited (some "abc")

/-- One element of the JSON list returned by the company search service;
the program only reads the `symbol` field. -/
structure SearchMatch where
  symbol : String
deriving Repr, DecidableEq

/-- Outcome of the single HTTP request made by `convert_company_to_ticker`:
either a response with a status code and a JSON list body, or
`requests.get` raising a `RequestException` (transport failure). -/
inductive SearchOutcome where
  | resp (status : Nat) (data : List SearchMatch)
  | transportError
deriving Repr, DecidableEq

/-- `convert_company_to_ticker` of src/app.py lines 80–87, with the search
service abstracted as `service` (the query string only enters the request
URL, so it does not influence the result). The function has no exception
handler: a transport failure propagates as `Except.error`. It returns
`some symbol` on a 200 response whose list is non-empty, `none` on an
empty list or any non-200 status. -/
def convert_company_to_ticker (service : SearchOutcome) : Except Unit (Option String) :=
  match service with
  | .transportError => .error ()
  | .resp status data =>
      if status == 200 then
        match data with
        | m :: _ => .ok (some m.symbol)
        | [] => .ok none
      else .ok none

/-- Line 137 of src/app.py:
`ticker = convert_company_to_ticker(ticker_or_company) or ticker_or_company`.
Python `or` falls back to `reference` when the left operand is falsy
(`None` or an empty string). An exception from
`convert_company_to_ticker` propagates. -/
def resolveTicker (service : SearchOutcome) (reference : String) : Except Unit String :=
  match convert_company_to_ticker service with
  | .error e => .error e
  | .ok (some s) => .ok (if s = "" then reference else s)
  | .ok none => .ok reference

/-- The tool-call arguments part of a language-model response, as observed
by `extract_year_and_ticker`:
* `malformed` — `json.loads(function_response.function.arguments)` raises;
* `parsed year tick` — the arguments parse to a JSON object;
  `year`/`ticker_or_company` are the values `dict.get` finds under the
  required keys (`none` when the key is absent, since `get` then
  returns `None`). -/
inductive ArgumentsBlob where
  | malformed
  | parsed (year : Option Int) (ticker_or_company : Option String)
deriving Repr, DecidableEq

/-- `extract_year_and_ticker` of src/app.py lines 29–78, with the
language-model call abstracted to the tool-call content of its response:
`none` models a response whose `tool_calls` is absent or empty (the
subscript `tool_calls[0]` raises), `some .malformed` a tool call whose
arguments do not parse as JSON (`json.loads` raises), and
`some (.parsed y t)` a parseable tool call. On success the function
returns exactly the values `dict.get` produced, which may be `none`. -/
def extract_year_and_ticker (toolCall : Option ArgumentsBlob) :
    Except Unit (Option Int × Option String) :=
  match toolCall with
  | none => .error ()
  | some .malformed => .error ()
  | some (.parsed y t) => .ok (y, t)

/-- The value `get_transcripts` delivers to its caller: `found t` returns
the dict `t`, the two `None`-returning exits return `None`, and a crash
propagates as an exception. -/
def pyReturn : FetchOutcome → Except Unit (Option Transcript)
  | .found t => .ok (some t)
  | .abortedNone => .ok none
  | .notFoundNone => .ok none
  | .crashed => .error ()

/-- Lines 138–142 of `process_user_input` (src/app.py): the transcript
fetch, whose outcome is `fetch`, followed by `analyze_transcript`
(abstracted as `analyze`, returning the completion content, which the
client may give as `None`). When the fetch returns `None`, the function
returns `(None, None)` without invoking the analysis; the result is the
same for every `analyze`. The earlier stages (intent extraction, ticker
resolution; lines 136–137) are modelled by `extract_year_and_ticker` and
`resolveTicker`, and any exception they or the fetch raise propagates. -/
def process_user_input (fetch : FetchOutcome) (analyze : Transcript → Option String) :
    Except Unit (Option Transcript × Option String) :=
  match pyReturn fetch with
  | .error e => .error e
  | .ok (some t) => .ok (some t, analyze t)
  | .ok none => .ok (none, none)

/-- What `main` renders (src/app.py lines 218–236): either the full report
(header with symbol and date, chart, analysis text, expandable
transcript) or the single error notice. -/
inductive Rendered where
  | report (symbol : String) (date : String) (analysis : String) (content : String)
  | errorNotice
deriving Repr, DecidableEq

/-- The `if transcript and analysis:` branch of `main` (src/app.py lines
222–236): the report is shown only when both the transcript and the
analysis are truthy (present and, for the analysis string, non-empty);
otherwise the single error notice is shown. An exception from
`process_user_input` propagates. -/
def mainRender (fetch : FetchOutcome) (analyze : Transcript → Option String) :
    Except Unit Rendered :=
  match process_user_input fetch analyze with
  | .error e => .error e
  | .ok (some t, some a) =>
      .ok (if a = "" then .errorNotice else .report t.symbol t.date a t.content)
  | .ok _ => .ok .errorNotice

/-- Seconds in a day, for `timedelta(days=30)` on second-precision
datetimes. -/
def secondsPerDay : Int := 86400

/-- The date range requested by `generate_price_chart` (src/app.py lines
153–157), with datetimes modelled as integer timestamps in seconds:
`start_date = earnings_date - timedelta(days=30)` and
`end_date = min(earnings_date + timedelta(days=30), datetime.now())`. -/
def chartRange (earnings_date : Int) (now : Int) : Int × Int :=
  (earnings_date - 30 * secondsPerDay, min (earnings_date + 30 * secondsPerDay) now)

/-- C1 (counterexample): with a service that raises a transport error on
every request, `get_transcripts` with `max_retries = 5` does NOT sleep
1, 2, 4, 8 and 16 seconds as the claim states: it returns `None` from the
last attempt without sleeping, so only four sleeps happen. -/
theorem c1_counterexample :
    (get_transcripts svcAlwaysTransport "AAPL" 2024 5 3).2.sleeps ≠ [1, 2, 4, 8, 16] := by
  decide

/-- C1 (amended): with a service that raises a transport error on every
request, `get_transcripts` with `max_retries = 5` makes exactly 5 requests,
all for the requested year, sleeps 1, 2, 4 and 8 seconds (`2 ^ attempt`
before each retry; no sleep follows the fifth and last attempt), returns
the failure `None` from inside the inner loop, and attempts no year
fallback. -/
theorem c1_transport_exhaustion (single_ticker : String) (y : Int) :
    get_transcripts svcAlwaysTransport single_ticker y 5 3 =
      (.abortedNone, ⟨List.replicate 5 (single_ticker, y), [1, 2, 4, 8]⟩) := rfl

/-- C1 (witness): the amended theorem evaluated at a concrete input. -/
theorem c1_witness :
    get_transcripts svcAlwaysTransport "AAPL" 2024 5 3 =
      (.abortedNone, ⟨List.replicate 5 ("AAPL", 2024), [1, 2, 4, 8]⟩) :=
  c1_transport_exhaustion "AAPL" 2024

/-- C2 (counterexample): with a service that answers HTTP 429 on every
request, exhausting the transient-retry budget does NOT terminate the
fetch in the aborted state: the inner loop falls through to the year
decrement, and the fetch goes on to request the earlier year 2023. -/
theorem c2_counterexample :
    (get_transcripts svcAlways429 "AAPL" 2024 5 3).1 ≠ FetchOutcome.abortedNone ∧
    ("AAPL", (2023 : Int)) ∈ (get_transcripts svcAlways429 "AAPL" 2024 5 3).2.calls := by
  exact ⟨by decide, by decide⟩

set_option maxHeartbeats 1600000 in
/-- C2 (amended): exhausting `max_retries` with persistent transport
errors terminates the fetch in the aborted (`return None`) state with no
earlier year tried; but exhausting it with persistent rate limiting
(HTTP 429 on every attempt) merely ends the inner `for` loop, so the
fetch decrements the year and retries, consuming the full
`5 × 3` request budget before returning `None` from the year-exhaustion
exit. -/
theorem c2_retry_exhaustion (single_ticker : String) (y : Int) :
    get_transcripts svcAlwaysTransport single_ticker y 5 3 =
      (.abortedNone, ⟨List.replicate 5 (single_ticker, y), [1, 2, 4, 8]⟩) ∧
    get_transcripts svcAlways429 single_ticker y 5 3 =
      (.notFoundNone,
        ⟨List.replicate 5 (single_ticker, y) ++ List.replicate 5 (single_ticker, y - 1) ++
            List.replicate 5 (single_ticker, y - 2),
          List.replicate 15 1⟩) := by
  refine ⟨rfl, ?_⟩
  have h : y - 2 = y - 1 - 1 := by ring
  rw [h]
  rfl

/-- C2 (witness): the amended theorem evaluated at a concrete input. -/
theorem c2_witness :
    get_transcripts svcAlwaysTransport "AAPL" 2024 5 3 =
      (.abortedNone, ⟨List.replicate 5 ("AAPL", 2024), [1, 2, 4, 8]⟩) ∧
    get_transcripts svcAlways429 "AAPL" 2024 5 3 =
      (.notFoundNone,
        ⟨List.replicate 5 ("AAPL", 2024) ++ List.replicate 5 ("AAPL", 2024 - 1) ++
            List.replicate 5 ("AAPL", 2024 - 2),
          List.replicate 15 1⟩) :=
  c2_retry_exhaustion "AAPL" 2024

/-- C3: with HTTP 200 / empty list for the first two candidate years and a
valid transcript for the third, `get_transcripts` abandons the inner loop
on each empty result without consuming further transient retries (no
sleeps, one request per year), decrements the year twice, and returns the
third-year transcript. -/
theorem c3_empty_year_fallback :
    get_transcripts svcC3 "AAPL" 2024 5 3 =
      (.found tC3, ⟨[("AAPL", 2024), ("AAPL", 2023), ("AAPL", 2022)], []⟩) := rfl

/-- C4: on HTTP 429 the code sleeps the `Retry-After` value and retries
the same ticker and year: with 429 and a header value of 2 on the first
two attempts and a valid transcript on the third, `get_transcripts`
returns that transcript after exactly two sleeps of 2 seconds and zero
year decrements; when the header is absent the sleep defaults to
5 seconds. -/
theorem c4_rate_limit_retry :
    get_transcripts svcC4 "AAPL" 2024 5 3 =
      (.found tC4, ⟨[("AAPL", 2024), ("AAPL", 2024), ("AAPL", 2024)], [2, 2]⟩) ∧
    get_transcripts svcC4b "AAPL" 2024 5 3 =
      (.found tC4, ⟨[("AAPL", 2024), ("AAPL", 2024)], [5]⟩) :=
  ⟨rfl, rfl⟩

/-- C10: on HTTP 429 with a `Retry-After` header that does not parse as an
integer, the `int(...)` conversion raises a `ValueError` that the handler
(which catches only `RequestException`) does not catch: `get_transcripts`
terminates with an unhandled exception after a single request, reaching
none of the documented terminal states (found / not-found / aborted). -/
theorem c10_unparseable_retry_after :
    get_transcripts svcBadRetryAfter "AAPL" 2024 5 3 =
      (.crashed, ⟨[("AAPL", 2024)], []⟩) := rfl

/-- C6 (counterexample): ticker resolution is NOT total: when the search
request raises a transport error, `convert_company_to_ticker` has no
exception handler, so line 137 raises instead of falling back to the
original reference. -/
theorem c6_counterexample :
    resolveTicker SearchOutcome.transportError "Apple" = Except.error () ∧
    resolveTicker SearchOutcome.transportError "Apple" ≠ Except.ok "Apple" := by
  refine ⟨rfl, ?_⟩
  intro h
  exact Except.noConfusion h

/-- C6 (amended): when the search service answers HTTP 200 with a
non-empty match list whose top symbol is a non-empty string, the pipeline
uses that symbol; on an empty list or a non-200 response it proceeds with
the original reference unchanged; but on a network error the uncaught
exception terminates the pipeline instead of falling back. -/
theorem c6_resolver_fallback (reference : String) (m : SearchMatch)
    (rest : List SearchMatch) (status : Nat) (data : List SearchMatch)
    (hm : m.symbol ≠ "") (hs : status ≠ 200) :
    resolveTicker (.resp 200 (m :: rest)) reference = .ok m.symbol ∧
    resolveTicker (.resp 200 []) reference = .ok reference ∧
    resolveTicker (.resp status data) reference = .ok reference ∧
    resolveTicker .transportError reference = .error () := by
  refine ⟨?_, rfl, ?_, rfl⟩
  · simp [resolveTicker, convert_company_to_ticker, hm]
  · cases data with
    | nil => simp [resolveTicker, convert_company_to_ticker, hs]
    | cons a l => simp [resolveTicker, convert_company_to_ticker, hs]

/-- C6 (witness): the amended theorem evaluated at concrete inputs. -/
theorem c6_witness :
    resolveTicker (.resp 200 ({ symbol := "AAPL" } :: [])) "Apple" =
      .ok (SearchMatch.mk "AAPL").symbol ∧
    resolveTicker (.resp 200 []) "Apple" = .ok "Apple" ∧
    resolveTicker (.resp 404 []) "Apple" = .ok "Apple" ∧
    resolveTicker .transportError "Apple" = .error () :=
  c6_resolver_fallback "Apple" { symbol := "AAPL" } [] 404 [] (by decide) (by decide)

/-- C7 (counterexample): the extractor can succeed with a null field: a
parseable tool call whose arguments lack the `year` key makes
`arguments.get` return `None`, and the function returns it as is. -/
theorem c7_counterexample :
    extract_year_and_ticker (some (.parsed none (some "AAPL"))) =
      .ok ((none : Option Int), some "AAPL") := rfl

/-- C7 (amended): when the response contains a parseable tool call, the
extractor succeeds and returns exactly the values found under the
required keys, with `None` standing in for an absent key; both fields are
non-null exactly when both keys are present with values. -/
theorem c7_extract_fields (y : Option Int) (t : Option String) :
    extract_year_and_ticker (some (.parsed y t)) = .ok (y, t) := rfl

/-- C7 (witness): the amended theorem evaluated at concrete inputs. -/
theorem c7_witness :
    extract_year_and_ticker (some (.parsed (some 2024) (some "AAPL"))) =
      .ok (some (2024 : Int), some "AAPL") :=
  c7_extract_fields (some 2024) (some "AAPL")

/-- C8: when the transcript fetch returns `None` (the not-found and
aborted exits), `process_user_input` returns `(None, None)` for every
analysis function — so the analysis stage is never invoked — and `main`
renders the single error notice, never a partial report. -/
theorem c8_short_circuit (fetch : FetchOutcome) (analyze : Transcript → Option String)
    (h : pyReturn fetch = .ok none) :
    process_user_input fetch analyze = .ok (none, none) ∧
    mainRender fetch analyze = .ok .errorNotice := by
  have h1 : process_user_input fetch analyze = .ok (none, none) := by
    unfold process_user_input
    rw [h]
  refine ⟨h1, ?_⟩
  unfold mainRender
  rw [h1]

/-- C8 (witness): the theorem evaluated at the not-found outcome and a
concrete analysis function. -/
theorem c8_witness :
    process_user_input .notFoundNone (fun _ => some "analysis text") = .ok (none, none) ∧
    mainRender .notFoundNone (fun _ => some "analysis text") = .ok .errorNotice :=
  c8_short_circuit FetchOutcome.notFoundNone (fun _ => some "analysis text") rfl

/-- C9 (counterexample): the requested price range does NOT always end
30 days after the call date: for a call dated now, the end of the range
is clamped to now. -/
theorem c9_counterexample :
    chartRange 0 0 ≠ (0 - 30 * secondsPerDay, 0 + 30 * secondsPerDay) := by
  decide

/-- C9 (amended): the requested price range starts exactly 30 days before
the call date and ends 30 days after the call date or at the current
time, whichever is earlier. -/
theorem c9_chart_window (d now : Int) :
    (chartRange d now).1 = d - 30 * secondsPerDay ∧
    (d + 30 * secondsPerDay ≤ now → (chartRange d now).2 = d + 30 * secondsPerDay) ∧
    (now ≤ d + 30 * secondsPerDay → (chartRange d now).2 = now) := by
  refine ⟨rfl, ?_, ?_⟩
  · intro h
    exact min_eq_left h
  · intro h
    exact min_eq_right h

/-- Every request the inner loop adds to the log is for the ticker and
year the loop was entered with. -/
theorem innerLoop_calls_mem (service : Nat → FetchResult) (single_ticker : String)
    (year : Int) (max_retries : Nat) :
    ∀ (rem attempt : Nat) (log : FetchLog),
      ∀ c ∈ (innerLoop service single_ticker year max_retries rem attempt log).2.calls,
        c ∈ log.calls ∨ c = (single_ticker, year) := by
  intro rem
  induction rem with
  | zero =>
      intro attempt log c hc
      exact Or.inl hc
  | succ n ih =>
      intro attempt log c hc
      rw [innerLoop] at hc
      rcases hsvc : service log.calls.length with ts | _ | hdr | _ | _ <;>
          rw [hsvc] at hc <;> dsimp only at hc
      · cases ts with
        | nil => simpa using hc
        | cons t tail => simpa using hc
      · simpa using hc
      · rcases hdr with _ | sHdr <;> dsimp only at hc
        · rw [if_neg (by norm_num : ¬((5 : Int) < 0))] at hc
          rcases ih (attempt + 1) _ c hc with h | h
          · simpa using h
          · exact Or.inr h
        · rcases hp : pyInt? sHdr with _ | ra <;> rw [hp] at hc <;> dsimp only at hc
          · simpa using hc
          · by_cases hra : ra < 0
            · rw [if_pos hra] at hc
              simpa using hc
            · rw [if_neg hra] at hc
              rcases ih (attempt + 1) _ c hc with h | h
              · simpa using h
              · exact Or.inr h
      · by_cases hab : (attempt + 1 == max_retries) = true
        · rw [if_pos hab] at hc
          simpa using hc
        · rw [if_neg hab] at hc
          rcases ih (attempt + 1) _ c hc with h | h
          · simpa using h
          · exact Or.inr h
      · by_cases hab : (attempt + 1 == max_retries) = true
        · rw [if_pos hab] at hc
          simpa using hc
        · rw [if_neg hab] at hc
          rcases ih (attempt + 1) _ c hc with h | h
          · simpa using h
          · exact Or.inr h

/-- Every request the outer loop adds to the log is for the entry ticker
and one of the at most `yrem` candidate years `y, y - 1, ...`, each one
less than the previous. -/
theorem outerLoop_calls_mem (service : Nat → FetchResult) (single_ticker : String)
    (max_retries : Nat) :
    ∀ (yrem : Nat) (y : Int) (log : FetchLog),
      ∀ c ∈ (outerLoop service single_ticker max_retries yrem y log).2.calls,
        c ∈ log.calls ∨ ∃ i : Nat, i < yrem ∧ c = (single_ticker, y - i) := by
  intro yrem
  induction yrem with
  | zero =>
      intro y log c hc
      exact Or.inl hc
  | succ n ih =>
      intro y log c hc
      rw [outerLoop] at hc
      rcases hinner : innerLoop service single_ticker y max_retries max_retries 0 log
        with ⟨res, log2⟩
      rw [hinner] at hc
      have hmem := innerLoop_calls_mem service single_ticker y max_retries max_retries 0 log
      rw [hinner] at hmem
      dsimp only at hmem
      cases res <;> dsimp only at hc
      · rcases hmem c hc with h | h
        · exact Or.inl h
        · exact Or.inr ⟨0, Nat.succ_pos n, by simpa using h⟩
      · rcases hmem c hc with h | h
        · exact Or.inl h
        · exact Or.inr ⟨0, Nat.succ_pos n, by simpa using h⟩
      · rcases hmem c hc with h | h
        · exact Or.inl h
        · exact Or.inr ⟨0, Nat.succ_pos n, by simpa using h⟩
      · rcases ih (y - 1) log2 c hc with h | ⟨i, hi, hci⟩
        · rcases hmem c h with h2 | h2
          · exact Or.inl h2
          · exact Or.inr ⟨0, Nat.succ_pos n, by simpa using h2⟩
        · refine Or.inr ⟨i + 1, Nat.succ_lt_succ hi, ?_⟩
          rw [hci]
          congr 1
          push_cast
          ring

/-- C5: with `year_retries = 3`, every request `get_transcripts` makes is
for one of at most 3 candidate years — the requested year and the two
years directly below it — and when the service answers HTTP 200 with an
empty list for all of them, the fetch returns `None` from the
year-exhaustion exit after exactly those 3 requests, with no further
service calls and no sleeps. -/
theorem c5_year_fallback_bound (service : Nat → FetchResult) (single_ticker : String)
    (y : Int) :
    (((get_transcripts service single_ticker y 5 3).2.calls).all
      (fun c => c == (single_ticker, y) || c == (single_ticker, y - 1) ||
        c == (single_ticker, y - 2)) = true) ∧
    get_transcripts svcAllEmpty single_ticker y 5 3 =
      (.notFoundNone, ⟨[(single_ticker, y), (single_ticker, y - 1), (single_ticker, y - 2)],
        []⟩) := by
  constructor
  · rw [List.all_eq_true]
    intro c hc
    have hb := outerLoop_calls_mem service single_ticker 5 3 y ⟨[], []⟩ c hc
    rcases hb with h | ⟨i, hi, hci⟩
    · simp at h
    · interval_cases i <;> simp_all
  · have h : y - 2 = y - 1 - 1 := by ring
    rw [h]
    rfl

/-- C5 (witness): the theorem evaluated at the all-empty service and a
concrete ticker and year. -/
theorem c5_witness :
    (((get_transcripts svcAllEmpty "AAPL" 2024 5 3).2.calls).all
      (fun c => c == ("AAPL", (2024 : Int)) || c == ("AAPL", 2024 - 1) ||
        c == ("AAPL", 2024 - 2)) = true) ∧
    get_transcripts svcAllEmpty "AAPL" 2024 5 3 =
      (.notFoundNone, ⟨[("AAPL", 2024), ("AAPL", 2024 - 1), ("AAPL", 2024 - 2)], []⟩) :=
  c5_year_fallback_bound svcAllEmpty "AAPL" 2024

/-- C9 (witness): the amended theorem evaluated at a concrete call date
and clock, with the hypothesis of the uncapped branch discharged. -/
theorem c9_witness :
    (chartRange 0 2592000).1 = 0 - 30 * secondsPerDay ∧
    (chartRange 0 2592000).2 = 0 + 30 * secondsPerDay :=
  ⟨(c9_chart_window 0 2592000).1, (c9_chart_window 0 2592000).2.1 (by decide)⟩

end TranscriptsAssistant
